import Mathlib

/-!
Verification development for the corrosion-assessment agent repository.

The Python source is shallowly embedded: Python floats become exact
rationals (`ℚ`), datetimes become abstract rational timestamps, and the
external collaborators (vision analyzer, LLM advisory service, file
system, random number generation) are supplied as explicit oracle
records, mirroring the spec's treatment of them as opaque interfaces.
-/

namespace CorrosionAgent

/-- Embeds `CorrosionLevel` from `src/models/data_models.py`. -/
inductive CorrosionLevel where
  | LOW
  | MEDIUM
  | HIGH
  | CRITICAL
deriving DecidableEq, Repr

/-- The str-enum value of a corrosion level. -/
def CorrosionLevel.value : CorrosionLevel → String
  | .LOW => "LOW"
  | .MEDIUM => "MEDIUM"
  | .HIGH => "HIGH"
  | .CRITICAL => "CRITICAL"

/-- Embeds `SensorType` from `src/models/data_models.py`. -/
inductive SensorType where
  | thickness
  | conductivity
  | temperature
  | humidity
  | ph
  | pressure
deriving DecidableEq, Repr

/-- Embeds `SensorData` (pydantic model).  `location` is the {x,y,z} dict. -/
structure SensorData where
  sensor_id : String
  sensor_type : SensorType
  value : ℚ
  unit : String
  timestamp : ℚ
  location : ℚ × ℚ × ℚ
  quality : ℚ
deriving DecidableEq, Repr

/-- Embeds `ImageData` (pydantic model); metadata keys are modelled as
string pairs. -/
structure ImageData where
  image_id : String
  file_path : String
  timestamp : ℚ
  location : ℚ × ℚ × ℚ
  resolution : ℤ × ℤ
  metadata : List (String × String)
deriving DecidableEq, Repr

/-- Embeds `CorrosionDetection`; bounding boxes are (x, y, w, h) tuples. -/
structure CorrosionDetection where
  detection_id : String
  image_id : Option String
  corrosion_area : ℚ
  corrosion_depth : ℚ
  corrosion_type : String
  confidence : ℚ
  bounding_boxes : List (ℤ × ℤ × ℤ × ℤ)
  timestamp : ℚ
deriving DecidableEq, Repr

/-- Embeds `RiskAssessment`; the `factors` dict is an association list in
insertion order. -/
structure RiskAssessment where
  assessment_id : String
  corrosion_level : CorrosionLevel
  risk_score : ℚ
  factors : List (String × ℚ)
  recommendations : List String
  urgency : String
  timestamp : ℚ
deriving DecidableEq, Repr

/-- Embeds `MaintenanceRecommendation`. -/
structure MaintenanceRecommendation where
  recommendation_id : String
  priority : ℕ
  action_type : String
  description : String
  estimated_cost : Option ℚ
  estimated_duration : Option ℕ
  required_resources : List String
deriving DecidableEq, Repr

/-- Embeds `InspectionReport`. -/
structure InspectionReport where
  report_id : String
  timestamp : ℚ
  inspector : String
  platform_id : String
  area_inspected : String
  sensor_data : List SensorData
  image_data : List ImageData
  corrosion_detections : List CorrosionDetection
  risk_assessment : Option RiskAssessment
  maintenance_recommendations : List MaintenanceRecommendation
  summary : String
  next_inspection_date : Option ℚ
deriving DecidableEq, Repr

/-- Embeds `AgentState`, the record threaded through every stage. -/
structure AgentState where
  session_id : String
  current_step : String
  platform_id : String
  inspection_area : String
  sensor_readings : List SensorData
  image_files : List String
  processed_images : List ImageData
  corrosion_detections : List CorrosionDetection
  risk_assessment : Option RiskAssessment
  final_report : Option InspectionReport
  llm_analysis : List (String × String)
  start_time : ℚ
  last_update : ℚ
  errors : List String
  warnings : List String
deriving DecidableEq, Repr

/-- Embeds the risk-threshold fields of `CorrosionAgentConfig`
(`src/config/settings.py`) with their default values. -/
structure CorrosionAgentConfig where
  low_risk_threshold : ℚ := 3/10
  medium_risk_threshold : ℚ := 6/10
  high_risk_threshold : ℚ := 8/10
deriving Repr

/-- The global `config` instance with default thresholds. -/
def config : CorrosionAgentConfig := {}

/-- `np.mean` over a list of rationals (callers guard non-emptiness). -/
def npMean (xs : List ℚ) : ℚ := xs.sum / xs.length

/-- Python's builtin `max` over a list (callers guard non-emptiness; the
empty case is an arbitrary default, unreachable in the embedded code). -/
def pyMax (xs : List ℚ) : ℚ :=
  match xs with
  | [] => 0
  | x :: t => t.foldl max x

namespace RiskAssessmentNode

/-- Embeds `RiskAssessmentNode._calculate_environmental_factor`
(`src/agents/nodes.py` lines 516-544). -/
def calculate_environmental_factor (sensor_readings : List SensorData) : ℚ :=
  if sensor_readings = [] then 1/2
  else
    let temp_readings := sensor_readings.filter (fun r => r.sensor_type == SensorType.temperature)
    let t_term :=
      if temp_readings ≠ [] then
        let avg_temp := npMean (temp_readings.map (·.value))
        min 1 ((avg_temp - 15) / 20) * (3/10)
      else 0
    let humidity_readings := sensor_readings.filter (fun r => r.sensor_type == SensorType.humidity)
    let h_term :=
      if humidity_readings ≠ [] then
        let avg_humidity := npMean (humidity_readings.map (·.value))
        min 1 ((avg_humidity - 60) / 30) * (2/5)
      else 0
    let ph_readings := sensor_readings.filter (fun r => r.sensor_type == SensorType.ph)
    let p_term :=
      if ph_readings ≠ [] then
        let avg_ph := npMean (ph_readings.map (·.value))
        min 1 (|avg_ph - 8| / 2) * (3/10)
      else 0
    min 1 (t_term + h_term + p_term)

/-- Embeds `RiskAssessmentNode._determine_risk_level`
(`src/agents/nodes.py` lines 546-555). -/
def determine_risk_level (risk_score : ℚ) : CorrosionLevel :=
  if risk_score < config.low_risk_threshold then CorrosionLevel.LOW
  else if risk_score < config.medium_risk_threshold then CorrosionLevel.MEDIUM
  else if risk_score < config.high_risk_threshold then CorrosionLevel.HIGH
  else CorrosionLevel.CRITICAL

/-- Embeds `RiskAssessmentNode._generate_recommendations`. -/
def generate_recommendations (level : CorrosionLevel) : List String :=
  match level with
  | .LOW =>
      ["继续按现有计划进行定期检测",
       "保持良好的防腐涂层维护",
       "监控环境条件变化"]
  | .MEDIUM =>
      ["增加检测频率至每3个月一次",
       "对检测到的腐蚀区域进行局部处理",
       "检查并更新防腐措施",
       "评估环境控制系统"]
  | .HIGH =>
      ["立即对严重腐蚀区域进行维修",
       "每月进行详细检测",
       "更换或加强防腐涂层",
       "考虑增加阴极保护措施",
       "制定详细的维修计划"]
  | .CRITICAL =>
      ["紧急停止相关设备运行",
       "立即安排专业维修团队",
       "每周进行安全检测",
       "重新评估整体结构安全性",
       "考虑部分结构更换"]

/-- Embeds `RiskAssessmentNode._determine_urgency`
(`src/agents/nodes.py` lines 593-602). -/
def determine_urgency (level : CorrosionLevel) (max_depth : ℚ) : String :=
  if level = CorrosionLevel.CRITICAL ∨ max_depth > 2 then "紧急"
  else if level = CorrosionLevel.HIGH ∨ max_depth > 1 then "高"
  else if level = CorrosionLevel.MEDIUM then "中等"
  else "低"

/-- Oracle for the risk-assessment node: the current time and the outcome
of the LLM maintenance-insight call (`none` models the call raising). -/
structure RiskOracle where
  now : ℚ
  llm_recommendations : Option (List String)

/-- Embeds `RiskAssessmentNode._enhance_recommendations_with_llm`: on LLM
failure or an empty result the base recommendations are kept. -/
def enhance_recommendations_with_llm (o : RiskOracle) (base : List String) : List String :=
  match o.llm_recommendations with
  | none => base
  | some enhanced => if enhanced ≠ [] then enhanced else base

/-- Embeds `RiskAssessmentNode._assess_risk`
(`src/agents/nodes.py` lines 462-514). -/
def assess_risk (o : RiskOracle) (detections : List CorrosionDetection)
    (sensor_readings : List SensorData) : RiskAssessment :=
  let total_area := (detections.map (·.corrosion_area)).sum
  let area_factor := min 1 (total_area / 5000)
  let max_depth := pyMax (detections.map (·.corrosion_depth))
  let depth_factor := min 1 (max_depth / 3)
  let count_factor := min 1 ((detections.length : ℚ) / 10)
  let env_factor := calculate_environmental_factor sensor_readings
  let risk_score :=
    area_factor * (3/10) + depth_factor * (2/5) +
    count_factor * (1/5) + env_factor * (1/10)
  let corrosion_level := determine_risk_level risk_score
  let recommendations := generate_recommendations corrosion_level
  let enhanced_recommendations := enhance_recommendations_with_llm o recommendations
  let urgency := determine_urgency corrosion_level max_depth
  { assessment_id := "risk_generated",
    corrosion_level := corrosion_level,
    risk_score := risk_score,
    factors := [("corrosion_area", area_factor),
                ("corrosion_depth", depth_factor),
                ("corrosion_count", count_factor),
                ("environmental", env_factor)],
    recommendations := enhanced_recommendations,
    urgency := urgency,
    timestamp := o.now }

/-- Embeds `RiskAssessmentNode.execute`
(`src/agents/nodes.py` lines 438-460). -/
def execute (o : RiskOracle) (state : AgentState) : AgentState :=
  let risk_assessment :=
    if state.corrosion_detections = [] then
      { assessment_id := "risk_" ++ state.session_id,
        corrosion_level := CorrosionLevel.LOW,
        risk_score := 1/10,
        factors := [("no_corrosion_detected", 1)],
        recommendations := ["继续定期监测", "保持当前维护计划"],
        urgency := "低",
        timestamp := o.now }
    else
      assess_risk o state.corrosion_detections state.sensor_readings
  { state with risk_assessment := some risk_assessment }

end RiskAssessmentNode

namespace ReportGenerationNode

/-- Oracle for the report-generation node: the current time and the
outcome of the LLM summary call (`none` models the call raising). -/
structure ReportOracle where
  now : ℚ
  llm_summary : Option String

/-- The fixed LOW-level maintenance record (`maint_001`). -/
def maint001 : MaintenanceRecommendation :=
  { recommendation_id := "maint_001",
    priority := 2,
    action_type := "预防性维护",
    description := "继续定期检测和防腐涂层维护",
    estimated_cost := some 5000,
    estimated_duration := some 8,
    required_resources := ["检测设备", "防腐材料"] }

/-- The fixed MEDIUM/HIGH repair record (`maint_002`). -/
def maint002 : MaintenanceRecommendation :=
  { recommendation_id := "maint_002",
    priority := 3,
    action_type := "修复性维护",
    description := "对腐蚀区域进行局部修复和重新涂装",
    estimated_cost := some 15000,
    estimated_duration := some 24,
    required_resources := ["维修工具", "防腐涂料", "专业人员"] }

/-- The fixed HIGH-level reinforcement record (`maint_003`). -/
def maint003 : MaintenanceRecommendation :=
  { recommendation_id := "maint_003",
    priority := 4,
    action_type := "结构加固",
    description := "对受损严重区域进行结构评估和加固",
    estimated_cost := some 50000,
    estimated_duration := some 72,
    required_resources := ["结构工程师", "加固材料", "专业设备"] }

/-- The fixed CRITICAL emergency record (`maint_004`). -/
def maint004 : MaintenanceRecommendation :=
  { recommendation_id := "maint_004",
    priority := 5,
    action_type := "紧急维修",
    description := "立即停止设备运行，进行紧急维修或更换",
    estimated_cost := some 100000,
    estimated_duration := some 120,
    required_resources := ["紧急维修团队", "替换部件", "重型设备"] }

/-- Embeds `ReportGenerationNode._generate_maintenance_recommendations`
(`src/agents/nodes.py` lines 677-734): an absent assessment yields the
empty list; otherwise records are selected by level, HIGH getting both
the repair and the reinforcement record. -/
def generate_maintenance_recommendations (state : AgentState) : List MaintenanceRecommendation :=
  match state.risk_assessment with
  | none => []
  | some a =>
    let level := a.corrosion_level
    if level = CorrosionLevel.LOW then [maint001]
    else if level = CorrosionLevel.MEDIUM ∨ level = CorrosionLevel.HIGH then
      [maint002] ++ (if level = CorrosionLevel.HIGH then [maint003] else [])
    else if level = CorrosionLevel.CRITICAL then [maint004]
    else []

/-- Stand-in for the Python numeric/date string formatting used inside
the textual summary (no claim depends on the rendered digits). -/
def fmtNum (q : ℚ) : String := toString q

/-- Embeds `ReportGenerationNode._generate_summary`: a deterministic
textual summary from counts, sums and maxima. -/
def generate_summary (state : AgentState) : String :=
  let base :=
    ["检测区域: " ++ state.inspection_area,
     "检测时间: " ++ fmtNum state.start_time,
     "传感器数据: 收集了 " ++ toString state.sensor_readings.length ++ " 个传感器读数",
     "图像数据: 处理了 " ++ toString state.processed_images.length ++ " 张图像"]
  let det :=
    if state.corrosion_detections ≠ [] then
      let total_area := (state.corrosion_detections.map (·.corrosion_area)).sum
      let max_depth := pyMax (state.corrosion_detections.map (·.corrosion_depth))
      ["腐蚀检测: 发现 " ++ toString state.corrosion_detections.length ++ " 个腐蚀点",
       "总腐蚀面积: " ++ fmtNum total_area ++ " 平方毫米",
       "最大腐蚀深度: " ++ fmtNum max_depth ++ " 毫米"]
    else
      ["腐蚀检测: 未发现明显腐蚀"]
  let risk :=
    match state.risk_assessment with
    | some a =>
      ["风险等级: " ++ a.corrosion_level.value,
       "风险评分: " ++ fmtNum a.risk_score,
       "紧急程度: " ++ a.urgency]
    | none => []
  String.intercalate "\n" (base ++ det ++ risk)

/-- Embeds `ReportGenerationNode._generate_enhanced_summary`: the LLM
summary replaces the deterministic one only when it is non-empty and its
stripped length exceeds 50; on failure the base summary is kept. -/
def generate_enhanced_summary (o : ReportOracle) (base : String) : String :=
  match o.llm_summary with
  | none => base
  | some enhanced =>
    if enhanced ≠ "" ∧ 50 < enhanced.trim.length then enhanced else base

/-- Embeds `ReportGenerationNode._calculate_next_inspection_date`.
`relativedelta` calendar arithmetic is abstracted to day counts on the
rational timeline (a month as 30 days, a week as 7). -/
def calculate_next_inspection_date (now : ℚ) (risk_assessment : Option RiskAssessment) : ℚ :=
  match risk_assessment with
  | none => now + 6 * 30
  | some a =>
    match a.corrosion_level with
    | .LOW => now + 6 * 30
    | .MEDIUM => now + 3 * 30
    | .HIGH => now + 1 * 30
    | .CRITICAL => now + 7

/-- Embeds `ReportGenerationNode.execute`
(`src/agents/nodes.py` lines 636-675): always assembles a report and
stores it in `final_report` (the JSON persistence side effect of
`_save_report` has no effect on the state). -/
def execute (o : ReportOracle) (state : AgentState) : AgentState :=
  let maintenance_recommendations := generate_maintenance_recommendations state
  let summary := generate_summary state
  let enhanced_summary := generate_enhanced_summary o summary
  let next_inspection := calculate_next_inspection_date o.now state.risk_assessment
  let report : InspectionReport :=
    { report_id := "report_" ++ state.session_id,
      timestamp := o.now,
      inspector := "Corrosion Detection Agent",
      platform_id := state.platform_id,
      area_inspected := state.inspection_area,
      sensor_data := state.sensor_readings,
      image_data := state.processed_images,
      corrosion_detections := state.corrosion_detections,
      risk_assessment := state.risk_assessment,
      maintenance_recommendations := maintenance_recommendations,
      summary := enhanced_summary,
      next_inspection_date := some next_inspection }
  { state with final_report := some report }

end ReportGenerationNode

namespace DataCollectionNode

/-- Oracle for the data-collection node: the random draws of the
simulated sensors, the file-system view, the image-processing results
and the possible exception outcomes of the two protected blocks. -/
structure DataOracle where
  now : ℚ
  thickness_loss : ℕ → ℚ
  thickness_quality : ℕ → ℚ
  temp_value : ℚ
  humidity_value : ℚ
  ph_value : ℚ
  conductivity_value : ℚ
  file_exists_fn : String → Bool
  process_single_image : String → Option ImageData
  sample_images : List ImageData
  collect_raises : Option String
  images_raise : Option String

/-- Embeds `DataCollectionNode._generate_thickness_readings`: five point
measurements against the 12.0 mm baseline, each with a sampled loss. -/
def generate_thickness_readings (o : DataOracle) (area : String) : List SensorData :=
  (List.range 5).map (fun i =>
    { sensor_id := "thickness_" ++ area ++ "_" ++ toString (i + 1),
      sensor_type := SensorType.thickness,
      value := 12 - o.thickness_loss i,
      unit := "mm",
      timestamp := o.now,
      location := ((i : ℚ) * 10, 0, 0),
      quality := o.thickness_quality i })

/-- Embeds `DataCollectionNode._generate_environmental_readings`: one
temperature, one humidity and one pH reading. -/
def generate_environmental_readings (o : DataOracle) (area : String) : List SensorData :=
  [{ sensor_id := "temp_" ++ area, sensor_type := SensorType.temperature,
     value := o.temp_value, unit := "°C", timestamp := o.now,
     location := (0, 0, 0), quality := 95/100 },
   { sensor_id := "humidity_" ++ area, sensor_type := SensorType.humidity,
     value := o.humidity_value, unit := "%RH", timestamp := o.now,
     location := (0, 0, 0), quality := 92/100 },
   { sensor_id := "ph_" ++ area, sensor_type := SensorType.ph,
     value := o.ph_value, unit := "pH", timestamp := o.now,
     location := (0, 0, 0), quality := 88/100 }]

/-- Embeds `DataCollectionNode._generate_electrochemical_readings`. -/
def generate_electrochemical_readings (o : DataOracle) (area : String) : List SensorData :=
  [{ sensor_id := "conductivity_" ++ area, sensor_type := SensorType.conductivity,
     value := o.conductivity_value, unit := "μS/cm", timestamp := o.now,
     location := (0, 0, 0), quality := 9/10 }]

/-- Embeds `DataCollectionNode._collect_sensor_data`: the whole block is
protected, a failure appends one error and leaves the readings alone. -/
def collect_sensor_data (o : DataOracle) (state : AgentState) : AgentState :=
  match o.collect_raises with
  | some msg => { state with errors := state.errors ++ ["传感器数据收集失败: " ++ msg] }
  | none =>
    let readings :=
      generate_thickness_readings o state.inspection_area ++
      generate_environmental_readings o state.inspection_area ++
      generate_electrochemical_readings o state.inspection_area
    { state with sensor_readings := readings }

/-- The per-file loop of `_process_image_data`, returning the processed
images and the warnings appended for missing files, in order. -/
def processImagesLoop (o : DataOracle) : List String → List ImageData × List String
  | [] => ([], [])
  | f :: rest =>
    let (imgs, ws) := processImagesLoop o rest
    if o.file_exists_fn f then
      match o.process_single_image f with
      | some img => (img :: imgs, ws)
      | none => (imgs, ws)
    else
      (imgs, ("图像文件不存在: " ++ f) :: ws)

/-- Embeds `DataCollectionNode._process_image_data`: missing files are
warned about, and when no image was processed the sampled placeholder
artifacts are used instead. -/
def process_image_data (o : DataOracle) (state : AgentState) : AgentState :=
  match o.images_raise with
  | some msg => { state with errors := state.errors ++ ["图像数据处理失败: " ++ msg] }
  | none =>
    let pr := processImagesLoop o state.image_files
    let processed := if pr.1 = [] then o.sample_images else pr.1
    { state with processed_images := processed, warnings := state.warnings ++ pr.2 }

/-- Embeds `DataCollectionNode.execute`. -/
def execute (o : DataOracle) (state : AgentState) : AgentState :=
  process_image_data o (collect_sensor_data o state)

end DataCollectionNode

namespace CorrosionAnalysisNode

/-- Oracle for the analysis node: the opaque vision analyzer result per
image (spec §6 treats image decoding and feature extraction as an
external collaborator) and the LLM analysis outcome. -/
structure AnalysisOracle where
  analyze_image : ImageData → Option CorrosionDetection
  llm_analysis_result : Option (List (String × String))

/-- Embeds `CorrosionAnalysisNode._enhance_with_sensor_data`
(`src/agents/nodes.py` lines 386-419): the thickness-fusion pass that
raises each finding's depth to at least 0.8 of the average thickness
loss against the 12.0 mm baseline and bumps confidence by 0.05, capped
at 0.95. -/
def enhance_with_sensor_data (detections : List CorrosionDetection)
    (sensor_readings : List SensorData) : List CorrosionDetection :=
  let thickness_readings := sensor_readings.filter (fun r => r.sensor_type == SensorType.thickness)
  if thickness_readings = [] then detections
  else
    detections.map (fun d =>
      let avg_thickness := npMean (thickness_readings.map (·.value))
      let thickness_loss := 12 - avg_thickness
      let adjusted_depth := max d.corrosion_depth (thickness_loss * (4/5))
      { d with corrosion_depth := adjusted_depth,
               confidence := min (95/100) (d.confidence + 5/100) })

/-- Python `dict.update`: entries of the second association list override
or extend those of the first. -/
def dictUpdate (base new : List (String × String)) : List (String × String) :=
  base.filter (fun kv => (new.lookup kv.1).isNone) ++ new

/-- Embeds `CorrosionAnalysisNode._perform_llm_analysis`: an LLM failure
is replaced by the fixed local fallback commentary. -/
def perform_llm_analysis (o : AnalysisOracle) : List (String × String) :=
  match o.llm_analysis_result with
  | some m => m
  | none =>
    [("severity_assessment", "基于传统方法的分析"),
     ("technical_insights", "使用传统图像处理和传感器数据分析")]

/-- Embeds `CorrosionAnalysisNode.execute`
(`src/agents/nodes.py` lines 289-318): per-image detection (images with
no regions contribute no finding), thickness fusion, and the advisory
map update. -/
def execute (o : AnalysisOracle) (state : AgentState) : AgentState :=
  let detections := state.processed_images.filterMap o.analyze_image
  let enhanced_detections := enhance_with_sensor_data detections state.sensor_readings
  let llm_analysis := perform_llm_analysis o
  { state with
      llm_analysis := dictUpdate state.llm_analysis llm_analysis,
      corrosion_detections := enhanced_detections }

end CorrosionAnalysisNode

/-! ## The mock LangGraph executor (`src/utils/mock_langgraph.py`) -/

/-- A loosely-typed field/value mapping returned by a stage in place of
the canonical state: each `AgentState` field is optionally present,
mirroring a Python keyword dict over the known field names. -/
structure StateDict where
  session_id : Option String := none
  current_step : Option String := none
  platform_id : Option String := none
  inspection_area : Option String := none
  sensor_readings : Option (List SensorData) := none
  image_files : Option (List String) := none
  processed_images : Option (List ImageData) := none
  corrosion_detections : Option (List CorrosionDetection) := none
  risk_assessment : Option (Option RiskAssessment) := none
  final_report : Option (Option InspectionReport) := none
  llm_analysis : Option (List (String × String)) := none
  start_time : Option ℚ := none
  last_update : Option ℚ := none
  errors : Option (List String) := none
  warnings : Option (List String) := none

/-- The possible run-time outcomes of invoking a stage function:
a canonical state object, a dict, a value of any other type, or an
exception escaping the stage. -/
inductive NodeResult where
  | stateObj (s : AgentState)
  | dictObj (d : StateDict)
  | otherObj
  | raises (msg : String)

/-- Destination of an edge: a stage name or the `END` marker. -/
inductive Dest where
  | node (name : String)
  | endMark
deriving DecidableEq, Repr

/-- A conditional edge: a decision function (which, like the Python
condition functions, may mutate the state as a side effect) and the
label-to-destination mapping. -/
structure CondEdge where
  decision : AgentState → String × AgentState
  mapping : List (String × Dest)

/-- Embeds `StateGraph`/`CompiledGraph`: the dict registries are
modelled as partial functions from names, matching Python dict lookup. -/
structure StateGraph where
  nodes : String → Option (AgentState → NodeResult)
  edges : String → Option (List Dest)
  conditional_edges : String → Option CondEdge
  entry_point : Option String

/-- Pydantic construction `AgentState(**d)` succeeds exactly when all
the required (non-defaulted) fields are present. -/
def StateDict.requiredPresent (d : StateDict) : Bool :=
  d.session_id.isSome && d.current_step.isSome && d.platform_id.isSome &&
  d.inspection_area.isSome && d.start_time.isSome && d.last_update.isSome

/-- The state built by `AgentState(**d)` when construction succeeds:
present fields are taken from the dict, absent optional fields take
their pydantic defaults. -/
def StateDict.build (d : StateDict) : AgentState :=
  { session_id := d.session_id.getD "",
    current_step := d.current_step.getD "",
    platform_id := d.platform_id.getD "",
    inspection_area := d.inspection_area.getD "",
    sensor_readings := d.sensor_readings.getD [],
    image_files := d.image_files.getD [],
    processed_images := d.processed_images.getD [],
    corrosion_detections := d.corrosion_detections.getD [],
    risk_assessment := (d.risk_assessment).getD none,
    final_report := (d.final_report).getD none,
    llm_analysis := d.llm_analysis.getD [],
    start_time := d.start_time.getD 0,
    last_update := d.last_update.getD 0,
    errors := d.errors.getD [],
    warnings := d.warnings.getD [] }

/-- The fallback `setattr` merge: every key present in the dict is
written onto the existing state, other fields are retained. -/
def StateDict.mergeInto (d : StateDict) (s : AgentState) : AgentState :=
  { session_id := d.session_id.getD s.session_id,
    current_step := d.current_step.getD s.current_step,
    platform_id := d.platform_id.getD s.platform_id,
    inspection_area := d.inspection_area.getD s.inspection_area,
    sensor_readings := d.sensor_readings.getD s.sensor_readings,
    image_files := d.image_files.getD s.image_files,
    processed_images := d.processed_images.getD s.processed_images,
    corrosion_detections := d.corrosion_detections.getD s.corrosion_detections,
    risk_assessment := (d.risk_assessment).getD s.risk_assessment,
    final_report := (d.final_report).getD s.final_report,
    llm_analysis := d.llm_analysis.getD s.llm_analysis,
    start_time := d.start_time.getD s.start_time,
    last_update := d.last_update.getD s.last_update,
    errors := d.errors.getD s.errors,
    warnings := d.warnings.getD s.warnings }

namespace CompiledGraph

/-- One node-execution step of `CompiledGraph.invoke` (lines 64-99): a
missing stage name is skipped with the state untouched; an exception
appends a descriptive error; a state object is adopted; a dict is
rebuilt or merged; any other return value is silently discarded. -/
def execNode (g : StateGraph) (name : String) (s : AgentState) : AgentState :=
  match g.nodes name with
  | none => s
  | some f =>
    match f s with
    | NodeResult.stateObj s2 => s2
    | NodeResult.dictObj d =>
      if d.requiredPresent then d.build else d.mergeInto s
    | NodeResult.otherObj => s
    | NodeResult.raises msg =>
      { s with errors := s.errors ++ ["节点 " ++ name ++ " 执行失败: " ++ msg] }

/-- Destination-to-next-name conversion (`END` becomes `none`). -/
def destNext : Dest → Option String
  | Dest.node n => some n
  | Dest.endMark => none

/-- The plain-edge half of `_get_next_node`: only the first registered
edge of a source name is honoured. -/
def plainNext (g : StateGraph) (name : String) : Option String :=
  match g.edges name with
  | some (d :: _) => destNext d
  | _ => none

/-- Embeds `CompiledGraph._get_next_node` (lines 112-129): a conditional
edge's decision runs first (its state side effects are kept); an unknown
label falls through to the plain edges, exactly as in the source. -/
def getNextNode (g : StateGraph) (name : String) (s : AgentState) : Option String × AgentState :=
  match g.conditional_edges name with
  | some ce =>
    let r := ce.decision s
    (match ce.mapping.lookup r.1 with
     | some d => destNext d
     | none => plainNext g name,
     r.2)
  | none => (plainNext g name, s)

/-- The fuel-bounded main loop of `invoke`; fuel mirrors the
`iteration < max_iterations` guard. -/
def invokeAux (g : StateGraph) : ℕ → Option String → AgentState → AgentState
  | 0, _, s => s
  | _ + 1, none, s => s
  | n + 1, some cur, s =>
    let s1 := execNode g cur s
    let nxt := getNextNode g cur s1
    invokeAux g n nxt.1 nxt.2

/-- Embeds `CompiledGraph.invoke` (lines 51-105) with its hard-coded
ceiling of 20 iterations (`ainvoke` is the same function). -/
def invoke (g : StateGraph) (initial_state : AgentState) : AgentState :=
  invokeAux g 20 g.entry_point initial_state

/-- The list of states reached after each loop iteration, in order: one
entry per executed step of `invoke`. -/
def invokeTraceAux (g : StateGraph) : ℕ → Option String → AgentState → List AgentState
  | 0, _, _ => []
  | _ + 1, none, _ => []
  | n + 1, some cur, s =>
    let s1 := execNode g cur s
    let nxt := getNextNode g cur s1
    nxt.2 :: invokeTraceAux g n nxt.1 nxt.2

/-- The step trace of a full `invoke` run. -/
def invokeTrace (g : StateGraph) (initial_state : AgentState) : List AgentState :=
  invokeTraceAux g 20 g.entry_point initial_state

end CompiledGraph

/-! ## The four-stage pipeline (`src/agents/corrosion_agent.py`) -/

namespace CorrosionDetectionAgent

/-- Embeds `CorrosionDetectionAgent._should_continue_to_analysis`
(lines 143-152): with pre-existing errors the run ends silently; with no
readings and no images an error is appended and the run ends. -/
def should_continue_to_analysis (state : AgentState) : String × AgentState :=
  if state.errors ≠ [] then ("end", state)
  else if state.sensor_readings = [] ∧ state.processed_images = [] then
    ("end", { state with errors := state.errors ++ ["没有可用的传感器数据或图像数据"] })
  else ("continue", state)

/-- Embeds `CorrosionDetectionAgent._should_continue_to_risk_assessment`
(lines 154-163): with pre-existing errors the run ends silently; with no
findings a warning is appended and the run ends. -/
def should_continue_to_risk_assessment (state : AgentState) : String × AgentState :=
  if state.errors ≠ [] then ("end", state)
  else if state.corrosion_detections = [] then
    ("end", { state with warnings := state.warnings ++ ["未检测到腐蚀，跳过风险评估"] })
  else ("continue", state)

/-- Embeds `CorrosionDetectionAgent._should_generate_report`: always
proceed to the report stage. -/
def should_generate_report (state : AgentState) : String × AgentState :=
  ("generate", state)

/-- Wrapper-level exception outcomes of the four protected node calls. -/
structure WrapperOracle where
  data_collection_raises : Option String := none
  analysis_raises : Option String := none
  risk_raises : Option String := none
  report_raises : Option String := none

/-- The oracles of a whole pipeline run. -/
structure PipelineOracle where
  now : ℚ
  dc : DataCollectionNode.DataOracle
  an : CorrosionAnalysisNode.AnalysisOracle
  risk : RiskAssessmentNode.RiskOracle
  rep : ReportGenerationNode.ReportOracle
  wrp : WrapperOracle

/-- Embeds `CorrosionDetectionAgent._data_collection_node`: the step
marker and timestamp are written first, then the node body runs under a
catch-all that appends one error. -/
def data_collection_node (o : PipelineOracle) (state : AgentState) : AgentState :=
  let s1 := { state with current_step := "data_collection", last_update := o.now }
  match o.wrp.data_collection_raises with
  | some msg => { s1 with errors := s1.errors ++ ["数据收集失败: " ++ msg] }
  | none => DataCollectionNode.execute o.dc s1

/-- Embeds `CorrosionDetectionAgent._corrosion_analysis_node`. -/
def corrosion_analysis_node (o : PipelineOracle) (state : AgentState) : AgentState :=
  let s1 := { state with current_step := "corrosion_analysis", last_update := o.now }
  match o.wrp.analysis_raises with
  | some msg => { s1 with errors := s1.errors ++ ["腐蚀分析失败: " ++ msg] }
  | none => CorrosionAnalysisNode.execute o.an s1

/-- Embeds `CorrosionDetectionAgent._risk_assessment_node`. -/
def risk_assessment_node (o : PipelineOracle) (state : AgentState) : AgentState :=
  let s1 := { state with current_step := "risk_assessment", last_update := o.now }
  match o.wrp.risk_raises with
  | some msg => { s1 with errors := s1.errors ++ ["风险评估失败: " ++ msg] }
  | none => RiskAssessmentNode.execute o.risk s1

/-- Embeds `CorrosionDetectionAgent._report_generation_node`. -/
def report_generation_node (o : PipelineOracle) (state : AgentState) : AgentState :=
  let s1 := { state with current_step := "report_generation", last_update := o.now }
  match o.wrp.report_raises with
  | some msg => { s1 with errors := s1.errors ++ ["报告生成失败: " ++ msg] }
  | none => ReportGenerationNode.execute o.rep s1

/-- Embeds `CorrosionDetectionAgent._build_graph` (lines 35-80): the
four registered stages, the three conditional edges (with the reserved
`retry` label) and the plain edge from report generation to `END`. -/
def agentGraph (o : PipelineOracle) : StateGraph :=
  { nodes := fun n =>
      if n = "data_collection" then
        some (fun s => NodeResult.stateObj (data_collection_node o s))
      else if n = "corrosion_analysis" then
        some (fun s => NodeResult.stateObj (corrosion_analysis_node o s))
      else if n = "risk_assessment" then
        some (fun s => NodeResult.stateObj (risk_assessment_node o s))
      else if n = "report_generation" then
        some (fun s => NodeResult.stateObj (report_generation_node o s))
      else none,
    edges := fun n =>
      if n = "report_generation" then some [Dest.endMark] else none,
    conditional_edges := fun n =>
      if n = "data_collection" then
        some { decision := should_continue_to_analysis,
               mapping := [("continue", Dest.node "corrosion_analysis"), ("end", Dest.endMark)] }
      else if n = "corrosion_analysis" then
        some { decision := should_continue_to_risk_assessment,
               mapping := [("continue", Dest.node "risk_assessment"),
                           ("retry", Dest.node "corrosion_analysis"), ("end", Dest.endMark)] }
      else if n = "risk_assessment" then
        some { decision := should_generate_report,
               mapping := [("generate", Dest.node "report_generation"), ("end", Dest.endMark)] }
      else none,
    entry_point := some "data_collection" }

end CorrosionDetectionAgent

/-! ## Test fixtures -/

/-- A fresh initial state, as built by `run_inspection`. -/
def baseState : AgentState :=
  { session_id := "sess-1",
    current_step := "init",
    platform_id := "platform-A",
    inspection_area := "deck",
    sensor_readings := [],
    image_files := [],
    processed_images := [],
    corrosion_detections := [],
    risk_assessment := none,
    final_report := none,
    llm_analysis := [],
    start_time := 0,
    last_update := 0,
    errors := [],
    warnings := [] }

/-- A risk oracle in which the LLM insight call fails (local fallback). -/
def riskOracle0 : RiskAssessmentNode.RiskOracle :=
  { now := 0, llm_recommendations := none }

/-- A report oracle in which the LLM summary call fails. -/
def reportOracle0 : ReportGenerationNode.ReportOracle :=
  { now := 0, llm_summary := none }

/-- A lone thickness reading (no temperature, humidity or pH data). -/
def thicknessReading : SensorData :=
  { sensor_id := "thickness_deck_1", sensor_type := SensorType.thickness,
    value := 10, unit := "mm", timestamp := 0, location := (0, 0, 0),
    quality := 9/10 }

/-- A temperature reading with a chosen value. -/
def tempReading (v : ℚ) : SensorData :=
  { sensor_id := "temp_deck", sensor_type := SensorType.temperature,
    value := v, unit := "°C", timestamp := 0, location := (0, 0, 0),
    quality := 95/100 }

/-- A humidity reading with a chosen value. -/
def humReading (v : ℚ) : SensorData :=
  { sensor_id := "humidity_deck", sensor_type := SensorType.humidity,
    value := v, unit := "%RH", timestamp := 0, location := (0, 0, 0),
    quality := 92/100 }

/-- A pH reading with a chosen value. -/
def phReading (v : ℚ) : SensorData :=
  { sensor_id := "ph_deck", sensor_type := SensorType.ph,
    value := v, unit := "pH", timestamp := 0, location := (0, 0, 0),
    quality := 88/100 }

/-- Scenario B's two findings: total area 600 mm², max depth 2.5 mm. -/
def scenarioBDetections : List CorrosionDetection :=
  [{ detection_id := "detection_sample_deck_1", image_id := some "sample_deck_1",
     corrosion_area := 400, corrosion_depth := 5/2, corrosion_type := "均匀腐蚀",
     confidence := 7/10, bounding_boxes := [], timestamp := 0 },
   { detection_id := "detection_sample_deck_2", image_id := some "sample_deck_2",
     corrosion_area := 200, corrosion_depth := 1, corrosion_type := "均匀腐蚀",
     confidence := 7/10, bounding_boxes := [], timestamp := 0 }]

/-! ## C2: empty findings give the fixed minimal assessment -/

/-- C2: for every run reaching risk scoring with an empty findings list,
the assessment is exactly LOW with risk score 0.1 and the fixed pair of
generic recommendations. -/
theorem C2_empty_findings_minimal_assessment
    (o : RiskAssessmentNode.RiskOracle) (s : AgentState)
    (h : s.corrosion_detections = []) :
    ∃ a, (RiskAssessmentNode.execute o s).risk_assessment = some a ∧
      a.corrosion_level = CorrosionLevel.LOW ∧
      a.risk_score = 1/10 ∧
      a.recommendations = ["继续定期监测", "保持当前维护计划"] ∧
      a.recommendations.length = 2 := by
  refine ⟨{ assessment_id := "risk_" ++ s.session_id,
            corrosion_level := CorrosionLevel.LOW,
            risk_score := 1/10,
            factors := [("no_corrosion_detected", 1)],
            recommendations := ["继续定期监测", "保持当前维护计划"],
            urgency := "低",
            timestamp := o.now }, ?_, rfl, rfl, rfl, rfl⟩
  simp [RiskAssessmentNode.execute, h]

/-- Witness for C2 on a concrete empty-findings state. -/
theorem C2_empty_findings_minimal_assessment_witness :
    ∃ a, (RiskAssessmentNode.execute riskOracle0 baseState).risk_assessment = some a ∧
      a.corrosion_level = CorrosionLevel.LOW ∧
      a.risk_score = 1/10 ∧
      a.recommendations = ["继续定期监测", "保持当前维护计划"] ∧
      a.recommendations.length = 2 :=
  C2_empty_findings_minimal_assessment riskOracle0 baseState rfl

/-! ## C5: a malformed stage return value is discarded silently -/

/-- C5: when a registered stage function returns a value that is neither
the canonical state class nor a dict, the state after reconciliation is
the state before the step, every field included, and no error or warning
entry is appended. -/
theorem C5_malformed_return_state_unchanged
    (g : StateGraph) (name : String) (f : AgentState → NodeResult) (s : AgentState)
    (hreg : g.nodes name = some f) (hother : f s = NodeResult.otherObj) :
    CompiledGraph.execNode g name s = s ∧
    (CompiledGraph.execNode g name s).errors = s.errors ∧
    (CompiledGraph.execNode g name s).warnings = s.warnings := by
  have h : CompiledGraph.execNode g name s = s := by
    simp [CompiledGraph.execNode, hreg, hother]
  exact ⟨h, by rw [h], by rw [h]⟩

/-- A graph with a single stage returning a malformed (non-state,
non-dict) value. -/
def malformedGraph : StateGraph :=
  { nodes := fun n => if n = "bad" then some (fun _ => NodeResult.otherObj) else none,
    edges := fun _ => none,
    conditional_edges := fun _ => none,
    entry_point := some "bad" }

/-- Witness for C5 on the concrete malformed-return graph. -/
theorem C5_malformed_return_state_unchanged_witness :
    CompiledGraph.execNode malformedGraph "bad" baseState = baseState ∧
    (CompiledGraph.execNode malformedGraph "bad" baseState).errors = baseState.errors ∧
    (CompiledGraph.execNode malformedGraph "bad" baseState).warnings = baseState.warnings :=
  C5_malformed_return_state_unchanged malformedGraph "bad"
    (fun _ => NodeResult.otherObj) baseState (by simp [malformedGraph]) rfl

/-! ## C4: a missing stage name does NOT halt the run -/

/-- A graph whose entry name `a` has no registered stage, but has an
outgoing edge to the registered stage `b`. -/
def missingEntryGraph : StateGraph :=
  { nodes := fun n =>
      if n = "b" then
        some (fun s => NodeResult.stateObj { s with current_step := "ran_b" })
      else none,
    edges := fun n => if n = "a" then some [Dest.node "b"] else none,
    conditional_edges := fun _ => none,
    entry_point := some "a" }

/-- Counterexample to C4: on a graph whose current name `a` has no
registered stage but has an edge `a → b`, `invoke` does not halt with
the state unchanged — it follows the edge and executes `b`, so the
returned state differs from the input state. -/
theorem C4_missing_stage_counterexample :
    (CompiledGraph.invoke missingEntryGraph baseState).current_step = "ran_b" ∧
    baseState.current_step = "init" ∧
    CompiledGraph.invoke missingEntryGraph baseState ≠ baseState := by
  refine ⟨by decide, rfl, ?_⟩
  intro h
  have h2 : (CompiledGraph.invoke missingEntryGraph baseState).current_step = "ran_b" := by decide
  rw [h] at h2
  simp [baseState] at h2

/-- C4 amended: a step at a name with no registered stage skips the
stage invocation (the state is unchanged by that invocation) but still
evaluates the name's outgoing edges and continues the loop with the
resulting next name; the run halts only when that evaluation yields no
next name. -/
theorem C4_missing_stage_skips_but_continues
    (g : StateGraph) (cur : String) (s : AgentState) (n : ℕ)
    (h : g.nodes cur = none) :
    CompiledGraph.execNode g cur s = s ∧
    CompiledGraph.invokeAux g (n + 1) (some cur) s =
      CompiledGraph.invokeAux g n (CompiledGraph.getNextNode g cur s).1
        (CompiledGraph.getNextNode g cur s).2 := by
  have hex : CompiledGraph.execNode g cur s = s := by
    simp [CompiledGraph.execNode, h]
  refine ⟨hex, ?_⟩
  simp only [CompiledGraph.invokeAux, hex]

/-- Witness for the amended C4 on the concrete missing-entry graph: the
skipped step keeps the state and the loop continues to stage `b`. -/
theorem C4_missing_stage_skips_but_continues_witness :
    CompiledGraph.execNode missingEntryGraph "a" baseState = baseState ∧
    CompiledGraph.invokeAux missingEntryGraph 20 (some "a") baseState =
      CompiledGraph.invokeAux missingEntryGraph 19
        (CompiledGraph.getNextNode missingEntryGraph "a" baseState).1
        (CompiledGraph.getNextNode missingEntryGraph "a" baseState).2 :=
  C4_missing_stage_skips_but_continues missingEntryGraph "a" baseState 19
    (by simp [missingEntryGraph])

/-! ## C6: which list records a routing halt -/

/-- A state carrying a pre-existing error. -/
def erroredState : AgentState := { baseState with errors := ["boom"] }

/-- Counterexample to C6: on a state with no errors, no readings and no
images, the routing decision after intake halts and appends its message
to `errors` — not to `warnings` — contradicting the claim that the
missing-data halt is recorded as a warning and never touches `errors`. -/
theorem C6_intake_halt_goes_to_errors :
    (CorrosionDetectionAgent.should_continue_to_analysis baseState).1 = "end" ∧
    (CorrosionDetectionAgent.should_continue_to_analysis baseState).2.errors =
      ["没有可用的传感器数据或图像数据"] ∧
    (CorrosionDetectionAgent.should_continue_to_analysis baseState).2.warnings = [] := by
  refine ⟨rfl, ?_, rfl⟩
  simp [CorrosionDetectionAgent.should_continue_to_analysis, baseState]

/-- C6 amended: a routing halt for missing findings after analysis is
recorded as a warning (errors untouched); a routing halt for missing
readings/images after intake is recorded as an error (warnings
untouched); a halt due to pre-existing non-empty errors records
nothing. -/
theorem C6_routing_halt_recording
    (s t u : AgentState)
    (hs1 : s.errors = []) (hs2 : s.sensor_readings = []) (hs3 : s.processed_images = [])
    (ht1 : t.errors = []) (ht2 : t.corrosion_detections = [])
    (hu : u.errors ≠ []) :
    (CorrosionDetectionAgent.should_continue_to_analysis s).1 = "end" ∧
    (CorrosionDetectionAgent.should_continue_to_analysis s).2.errors =
      s.errors ++ ["没有可用的传感器数据或图像数据"] ∧
    (CorrosionDetectionAgent.should_continue_to_analysis s).2.warnings = s.warnings ∧
    (CorrosionDetectionAgent.should_continue_to_risk_assessment t).1 = "end" ∧
    (CorrosionDetectionAgent.should_continue_to_risk_assessment t).2.warnings =
      t.warnings ++ ["未检测到腐蚀，跳过风险评估"] ∧
    (CorrosionDetectionAgent.should_continue_to_risk_assessment t).2.errors = t.errors ∧
    CorrosionDetectionAgent.should_continue_to_analysis u = ("end", u) ∧
    CorrosionDetectionAgent.should_continue_to_risk_assessment u = ("end", u) := by
  unfold CorrosionDetectionAgent.should_continue_to_analysis
    CorrosionDetectionAgent.should_continue_to_risk_assessment
  simp [hs1, hs2, hs3, ht1, ht2, hu]

/-- Witness for the amended C6 on concrete states. -/
theorem C6_routing_halt_recording_witness :
    (CorrosionDetectionAgent.should_continue_to_analysis baseState).1 = "end" ∧
    (CorrosionDetectionAgent.should_continue_to_analysis baseState).2.errors =
      baseState.errors ++ ["没有可用的传感器数据或图像数据"] ∧
    (CorrosionDetectionAgent.should_continue_to_analysis baseState).2.warnings =
      baseState.warnings ∧
    (CorrosionDetectionAgent.should_continue_to_risk_assessment baseState).1 = "end" ∧
    (CorrosionDetectionAgent.should_continue_to_risk_assessment baseState).2.warnings =
      baseState.warnings ++ ["未检测到腐蚀，跳过风险评估"] ∧
    (CorrosionDetectionAgent.should_continue_to_risk_assessment baseState).2.errors =
      baseState.errors ∧
    CorrosionDetectionAgent.should_continue_to_analysis erroredState = ("end", erroredState) ∧
    CorrosionDetectionAgent.should_continue_to_risk_assessment erroredState =
      ("end", erroredState) :=
  C6_routing_halt_recording baseState baseState erroredState
    rfl rfl rfl rfl rfl (by simp [erroredState])

/-! ## C9: the environmental factor and absent sensor kinds -/

/-- Counterexample to C9: with a non-empty readings list containing no
temperature, humidity or pH readings, every per-kind term contributes
nothing and the environmental factor is 0, not a blend of mid-value
defaults (the overall 0.5 default applies only to an empty list). -/
theorem C9_absent_kinds_contribute_nothing :
    RiskAssessmentNode.calculate_environmental_factor [thicknessReading] = 0 ∧
    RiskAssessmentNode.calculate_environmental_factor [] = 1/2 ∧
    RiskAssessmentNode.calculate_environmental_factor [thicknessReading] ≠
      RiskAssessmentNode.calculate_environmental_factor [] := by
  have h1 : RiskAssessmentNode.calculate_environmental_factor [thicknessReading] = 0 := by
    simp [RiskAssessmentNode.calculate_environmental_factor, thicknessReading]
  have h2 : RiskAssessmentNode.calculate_environmental_factor [] = 1/2 := by
    simp [RiskAssessmentNode.calculate_environmental_factor]
  refine ⟨h1, h2, ?_⟩
  rw [h1, h2]
  norm_num

/-- C9 amended: the environmental factor is the 0.3/0.4/0.3-weighted
blend of the temperature, humidity and pH deviation-from-8 terms of the
kinds actually present, capped at 1; a kind with no readings contributes
0 (so a non-empty list with none of the three kinds yields 0), and the
mid default 0.5 applies only when the readings list is entirely
empty. -/
theorem C9_environmental_factor_characterization
    (rs : List SensorData) (hne : rs ≠ [])
    (ht : rs.filter (fun r => r.sensor_type == SensorType.temperature) = [])
    (hh : rs.filter (fun r => r.sensor_type == SensorType.humidity) = [])
    (hp : rs.filter (fun r => r.sensor_type == SensorType.ph) = []) :
    RiskAssessmentNode.calculate_environmental_factor rs = 0 ∧
    RiskAssessmentNode.calculate_environmental_factor [] = 1/2 ∧
    (∀ tv hv pv : ℚ,
      RiskAssessmentNode.calculate_environmental_factor
          [tempReading tv, humReading hv, phReading pv] =
        min 1 (min 1 ((tv - 15) / 20) * (3/10) + min 1 ((hv - 60) / 30) * (2/5) +
               min 1 (|pv - 8| / 2) * (3/10))) := by
  refine ⟨?_, by simp [RiskAssessmentNode.calculate_environmental_factor], ?_⟩
  · simp [RiskAssessmentNode.calculate_environmental_factor, hne, ht, hh, hp]
  · intro tv hv pv
    simp [RiskAssessmentNode.calculate_environmental_factor,
          tempReading, humReading, phReading, npMean]

/-- Witness for the amended C9 on the lone-thickness-reading list. -/
theorem C9_environmental_factor_characterization_witness :
    RiskAssessmentNode.calculate_environmental_factor [thicknessReading] = 0 ∧
    RiskAssessmentNode.calculate_environmental_factor [] = 1/2 ∧
    (∀ tv hv pv : ℚ,
      RiskAssessmentNode.calculate_environmental_factor
          [tempReading tv, humReading hv, phReading pv] =
        min 1 (min 1 ((tv - 15) / 20) * (3/10) + min 1 ((hv - 60) / 30) * (2/5) +
               min 1 (|pv - 8| / 2) * (3/10))) :=
  C9_environmental_factor_characterization [thicknessReading]
    (by simp) (by simp [thicknessReading]) (by simp [thicknessReading])
    (by simp [thicknessReading])

/-! ## C8: the step ceiling bounds every run, cycles included -/

/-- The trace of the bounded loop never exceeds the remaining fuel. -/
theorem invokeTraceAux_length_le (g : StateGraph) :
    ∀ (n : ℕ) (cur : Option String) (s : AgentState),
      (CompiledGraph.invokeTraceAux g n cur s).length ≤ n := by
  intro n
  induction n with
  | zero => intro cur s; simp [CompiledGraph.invokeTraceAux]
  | succ n ih =>
    intro cur s
    cases cur with
    | none => simp [CompiledGraph.invokeTraceAux]
    | some c =>
      simp only [CompiledGraph.invokeTraceAux, List.length_cons]
      exact Nat.succ_le_succ (ih _ _)

/-- A graph whose single stage loops back to itself forever. -/
def selfLoopGraph : StateGraph :=
  { nodes := fun n => if n = "loop" then some (fun s => NodeResult.stateObj s) else none,
    edges := fun n => if n = "loop" then some [Dest.node "loop"] else none,
    conditional_edges := fun _ => none,
    entry_point := some "loop" }

/-- On the self-loop graph every iteration re-enters the same stage, so
the trace consumes exactly the available fuel. -/
theorem selfLoop_trace_length :
    ∀ (n : ℕ) (s : AgentState),
      (CompiledGraph.invokeTraceAux selfLoopGraph n (some "loop") s).length = n := by
  intro n
  induction n with
  | zero => intro s; simp [CompiledGraph.invokeTraceAux]
  | succ n ih =>
    intro s
    have hstep :
        CompiledGraph.invokeTraceAux selfLoopGraph (n + 1) (some "loop") s =
          s :: CompiledGraph.invokeTraceAux selfLoopGraph n (some "loop") s := by
      simp [CompiledGraph.invokeTraceAux, CompiledGraph.execNode,
            CompiledGraph.getNextNode, CompiledGraph.plainNext,
            CompiledGraph.destNext, selfLoopGraph]
    rw [hstep, List.length_cons, ih]

/-- C8: every `invoke` run executes at most the fixed ceiling of 20
stage-invocation steps, for every graph and state — and a graph whose
edges form a self-loop cycle indeed runs for exactly those 20 steps
before terminating. -/
theorem C8_invoke_step_ceiling :
    (∀ (g : StateGraph) (s : AgentState),
       (CompiledGraph.invokeTrace g s).length ≤ 20) ∧
    (CompiledGraph.invokeTrace selfLoopGraph baseState).length = 20 := by
  constructor
  · intro g s
    exact invokeTraceAux_length_le g 20 g.entry_point s
  · exact selfLoop_trace_length 20 baseState

/-! ## C3: risk score bounds and level monotonicity -/

/-- The ordinal rank of a corrosion level (LOW < MEDIUM < HIGH <
CRITICAL). -/
def levelRank : CorrosionLevel → ℕ
  | .LOW => 0
  | .MEDIUM => 1
  | .HIGH => 2
  | .CRITICAL => 3

/-- A list whose members all dominate `c` has sum at least `c` times its
length. -/
theorem mul_length_le_sum (c : ℚ) :
    ∀ (xs : List ℚ), (∀ x ∈ xs, c ≤ x) → c * xs.length ≤ xs.sum := by
  intro xs
  induction xs with
  | nil => intro _; simp
  | cons a t ih =>
    intro h
    have ha : c ≤ a := h a (by simp)
    have ht : c * t.length ≤ t.sum := ih (fun x hx => h x (by simp [hx]))
    simp only [List.length_cons, List.sum_cons]
    push_cast
    nlinarith

/-- The mean of a non-empty list of values all at least `c` is at least
`c`. -/
theorem npMean_ge {c : ℚ} {xs : List ℚ} (hne : xs ≠ [])
    (h : ∀ x ∈ xs, c ≤ x) : c ≤ npMean xs := by
  have hlen : 0 < (xs.length : ℚ) := by
    have := List.length_pos.mpr hne
    exact_mod_cast this
  have hsum := mul_length_le_sum c xs h
  rw [npMean, le_div_iff₀ hlen]
  linarith

/-- `pyMax` of a list of non-negative values is non-negative. -/
theorem pyMax_nonneg {xs : List ℚ} (h : ∀ x ∈ xs, 0 ≤ x) : 0 ≤ pyMax xs := by
  cases xs with
  | nil => simp [pyMax]
  | cons a t =>
    have ha : 0 ≤ a := h a (by simp)
    have key : ∀ (l : List ℚ) (b : ℚ), 0 ≤ b → 0 ≤ l.foldl max b := by
      intro l
      induction l with
      | nil => intro b hb; simpa using hb
      | cons x m ih =>
        intro b hb
        exact ih (max b x) (le_trans hb (le_max_left b x))
    simpa [pyMax] using key t a ha

/-- A banded per-kind environmental term is non-negative when every
reading of that kind sits at or above the band's lower edge `c`. -/
theorem term_nonneg_of_mean_ge (rs : List SensorData) (st : SensorType) (c k w : ℚ)
    (hw : 0 ≤ w) (hk : 0 < k)
    (h : ∀ r ∈ rs, r.sensor_type = st → c ≤ r.value) :
    0 ≤ if rs.filter (fun r => r.sensor_type == st) ≠ [] then
          min 1 ((npMean ((rs.filter (fun r => r.sensor_type == st)).map
            (fun x => x.value)) - c) / k) * w
        else 0 := by
  split
  · rename_i hne
    have hmean : c ≤ npMean ((rs.filter (fun r => r.sensor_type == st)).map
        (fun x => x.value)) := by
      apply npMean_ge
      · intro hmap
        exact hne (List.map_eq_nil_iff.mp hmap)
      · intro x hx
        obtain ⟨r, hr, hrx⟩ := List.mem_map.mp hx
        have hmem := List.mem_filter.mp hr
        exact hrx ▸ h r hmem.1 (by simpa using hmem.2)
    have hq : 0 ≤ (npMean ((rs.filter (fun r => r.sensor_type == st)).map
        (fun x => x.value)) - c) / k :=
      div_nonneg (by linarith) hk.le
    exact mul_nonneg (le_min (by norm_num) hq) hw
  · exact le_refl 0

/-- The pH deviation term is always non-negative. -/
theorem ph_term_nonneg (rs : List SensorData) :
    0 ≤ if rs.filter (fun r => r.sensor_type == SensorType.ph) ≠ [] then
          min 1 (|npMean ((rs.filter (fun r => r.sensor_type == SensorType.ph)).map
            (fun x => x.value)) - 8| / 2) * (3/10)
        else 0 := by
  split
  · have hq : (0:ℚ) ≤ |npMean ((rs.filter (fun r => r.sensor_type == SensorType.ph)).map
        (fun x => x.value)) - 8| / 2 := by positivity
    exact mul_nonneg (le_min (by norm_num) hq) (by norm_num)
  · exact le_refl 0

/-- The environmental factor lies in [0, 1] whenever every temperature
reading is at least 15 and every humidity reading at least 60 (the
bands intake generates from). -/
theorem env_factor_bounds (rs : List SensorData)
    (htemp : ∀ r ∈ rs, r.sensor_type = SensorType.temperature → 15 ≤ r.value)
    (hhum : ∀ r ∈ rs, r.sensor_type = SensorType.humidity → 60 ≤ r.value) :
    0 ≤ RiskAssessmentNode.calculate_environmental_factor rs ∧
    RiskAssessmentNode.calculate_environmental_factor rs ≤ 1 := by
  unfold RiskAssessmentNode.calculate_environmental_factor
  by_cases hrs : rs = []
  · rw [if_pos hrs]
    norm_num
  · rw [if_neg hrs]
    simp only []
    refine ⟨le_min (by norm_num) (add_nonneg (add_nonneg ?_ ?_) ?_), min_le_left _ _⟩
    · exact term_nonneg_of_mean_ge rs SensorType.temperature 15 20 (3/10)
        (by norm_num) (by norm_num) htemp
    · exact term_nonneg_of_mean_ge rs SensorType.humidity 60 30 (2/5)
        (by norm_num) (by norm_num) hhum
    · exact ph_term_nonneg rs

/-- The composite risk score of `_assess_risk` lies in [0, 1] under the
sign conditions that every run's inputs satisfy. -/
theorem assess_risk_score_bounds (o : RiskAssessmentNode.RiskOracle)
    (dets : List CorrosionDetection) (rs : List SensorData)
    (harea : ∀ d ∈ dets, 0 ≤ d.corrosion_area)
    (hdepth : ∀ d ∈ dets, 0 ≤ d.corrosion_depth)
    (htemp : ∀ r ∈ rs, r.sensor_type = SensorType.temperature → 15 ≤ r.value)
    (hhum : ∀ r ∈ rs, r.sensor_type = SensorType.humidity → 60 ≤ r.value) :
    0 ≤ (RiskAssessmentNode.assess_risk o dets rs).risk_score ∧
    (RiskAssessmentNode.assess_risk o dets rs).risk_score ≤ 1 := by
  obtain ⟨he0, he1⟩ := env_factor_bounds rs htemp hhum
  have hsum : 0 ≤ (dets.map (fun d => d.corrosion_area)).sum := by
    apply List.sum_nonneg
    intro x hx
    obtain ⟨d, hd, rfl⟩ := List.mem_map.mp hx
    exact harea d hd
  have hmax : 0 ≤ pyMax (dets.map (fun d => d.corrosion_depth)) := by
    apply pyMax_nonneg
    intro x hx
    obtain ⟨d, hd, rfl⟩ := List.mem_map.mp hx
    exact hdepth d hd
  have ha0 : 0 ≤ min 1 ((dets.map (fun d => d.corrosion_area)).sum / 5000) :=
    le_min (by norm_num) (by positivity)
  have ha1 : min 1 ((dets.map (fun d => d.corrosion_area)).sum / 5000) ≤ 1 :=
    min_le_left _ _
  have hd0 : 0 ≤ min 1 (pyMax (dets.map (fun d => d.corrosion_depth)) / 3) :=
    le_min (by norm_num) (by positivity)
  have hd1 : min 1 (pyMax (dets.map (fun d => d.corrosion_depth)) / 3) ≤ 1 :=
    min_le_left _ _
  have hc0 : 0 ≤ min 1 ((dets.length : ℚ) / 10) :=
    le_min (by norm_num) (by positivity)
  have hc1 : min 1 ((dets.length : ℚ) / 10) ≤ 1 := min_le_left _ _
  unfold RiskAssessmentNode.assess_risk
  simp only []
  constructor <;> nlinarith

/-- The level-from-score map is monotone in the score. -/
theorem determine_risk_level_mono (x y : ℚ) (hxy : x ≤ y) :
    levelRank (RiskAssessmentNode.determine_risk_level x) ≤
    levelRank (RiskAssessmentNode.determine_risk_level y) := by
  unfold RiskAssessmentNode.determine_risk_level
  simp only [config]
  split_ifs <;> simp [levelRank] <;> linarith

/-- C3: every risk score the scoring stage produces (under the input
sign conditions every run satisfies) lies in [0, 1], and the level
assigned from a score is a non-decreasing step function of the score
with thresholds 0.3 / 0.6 / 0.8, hitting LOW at 0.29, MEDIUM at 0.31,
HIGH at 0.61 and CRITICAL at 0.81. -/
theorem C3_risk_score_bounds_level_monotone
    (o : RiskAssessmentNode.RiskOracle) (s : AgentState)
    (harea : ∀ d ∈ s.corrosion_detections, 0 ≤ d.corrosion_area)
    (hdepth : ∀ d ∈ s.corrosion_detections, 0 ≤ d.corrosion_depth)
    (htemp : ∀ r ∈ s.sensor_readings, r.sensor_type = SensorType.temperature → 15 ≤ r.value)
    (hhum : ∀ r ∈ s.sensor_readings, r.sensor_type = SensorType.humidity → 60 ≤ r.value) :
    (∀ a, (RiskAssessmentNode.execute o s).risk_assessment = some a →
       0 ≤ a.risk_score ∧ a.risk_score ≤ 1) ∧
    (∀ x y : ℚ, x ≤ y →
       levelRank (RiskAssessmentNode.determine_risk_level x) ≤
       levelRank (RiskAssessmentNode.determine_risk_level y)) ∧
    RiskAssessmentNode.determine_risk_level (29/100) = CorrosionLevel.LOW ∧
    RiskAssessmentNode.determine_risk_level (31/100) = CorrosionLevel.MEDIUM ∧
    RiskAssessmentNode.determine_risk_level (61/100) = CorrosionLevel.HIGH ∧
    RiskAssessmentNode.determine_risk_level (81/100) = CorrosionLevel.CRITICAL := by
  refine ⟨?_, determine_risk_level_mono, ?_, ?_, ?_, ?_⟩
  · intro a ha
    unfold RiskAssessmentNode.execute at ha
    simp only [Option.some_inj] at ha
    by_cases hdets : s.corrosion_detections = []
    · rw [if_pos hdets] at ha
      rw [← ha]
      norm_num
    · rw [if_neg hdets] at ha
      rw [← ha]
      exact assess_risk_score_bounds o s.corrosion_detections s.sensor_readings
        harea hdepth htemp hhum
  all_goals
    norm_num [RiskAssessmentNode.determine_risk_level, config]

/-- Witness for C3 on a concrete single-finding state with in-band
environmental readings. -/
theorem C3_risk_score_bounds_level_monotone_witness :
    (∀ a, (RiskAssessmentNode.execute riskOracle0
        { baseState with
            corrosion_detections := scenarioBDetections,
            sensor_readings := [tempReading 25, humReading 75, phReading 8] }).risk_assessment =
          some a → 0 ≤ a.risk_score ∧ a.risk_score ≤ 1) ∧
    (∀ x y : ℚ, x ≤ y →
       levelRank (RiskAssessmentNode.determine_risk_level x) ≤
       levelRank (RiskAssessmentNode.determine_risk_level y)) ∧
    RiskAssessmentNode.determine_risk_level (29/100) = CorrosionLevel.LOW ∧
    RiskAssessmentNode.determine_risk_level (31/100) = CorrosionLevel.MEDIUM ∧
    RiskAssessmentNode.determine_risk_level (61/100) = CorrosionLevel.HIGH ∧
    RiskAssessmentNode.determine_risk_level (81/100) = CorrosionLevel.CRITICAL :=
  C3_risk_score_bounds_level_monotone riskOracle0 _
    (by intro d hd; fin_cases hd <;> norm_num [scenarioBDetections])
    (by intro d hd; fin_cases hd <;> norm_num [scenarioBDetections])
    (by intro r hr; fin_cases hr <;> simp [tempReading, humReading, phReading] <;> norm_num)
    (by intro r hr; fin_cases hr <;> simp [tempReading, humReading, phReading] <;> norm_num)

/-! ## C1: Scenario B -/

/-- Counterexample to C1: on Scenario B's inputs (2 findings, total area
600 mm², max depth 2.5 mm, empty readings so the environmental factor
takes its 0.5 default) the computed urgency is the highest label
"紧急" — because the 2.5 mm max depth exceeds the 2.0 mm urgency
override threshold — and not the 'mid' label "中等" the claim states;
the factors, score ≈ 0.459 and MEDIUM level are as claimed. -/
theorem C1_scenario_b_urgency_counterexample :
    (RiskAssessmentNode.assess_risk riskOracle0 scenarioBDetections []).urgency = "紧急" ∧
    (RiskAssessmentNode.assess_risk riskOracle0 scenarioBDetections []).urgency ≠ "中等" ∧
    (RiskAssessmentNode.assess_risk riskOracle0 scenarioBDetections []).corrosion_level =
      CorrosionLevel.MEDIUM ∧
    (RiskAssessmentNode.assess_risk riskOracle0 scenarioBDetections []).risk_score =
      689/1500 := by
  have henv : RiskAssessmentNode.calculate_environmental_factor [] = 1/2 := by
    simp [RiskAssessmentNode.calculate_environmental_factor]
  have hu : (RiskAssessmentNode.assess_risk riskOracle0 scenarioBDetections []).urgency =
      "紧急" := by
    norm_num [RiskAssessmentNode.assess_risk, scenarioBDetections, henv, min_def,
      max_def, pyMax, RiskAssessmentNode.determine_risk_level,
      RiskAssessmentNode.determine_urgency, config]
  refine ⟨hu, by rw [hu]; decide, ?_, ?_⟩ <;>
    norm_num [RiskAssessmentNode.assess_risk, scenarioBDetections, henv, min_def,
      max_def, pyMax, RiskAssessmentNode.determine_risk_level,
      RiskAssessmentNode.determine_urgency, config]

/-- C1 amended: on every Scenario B input (2 findings, total area
600 mm², max depth 2.5 mm, environmental factor at its 0.5 default from
empty readings) the scoring stage computes factors area = 0.12,
depth = 5/6 (≈0.833), count = 0.2, environmental = 0.5, combines them to
score 689/1500 (≈0.459), assigns level MEDIUM, and assigns the highest
urgency label "紧急" because the 2.5 mm max depth exceeds the 2.0 mm
depth override threshold. -/
theorem C1_scenario_b_assessment (o : RiskAssessmentNode.RiskOracle)
    (dets : List CorrosionDetection)
    (hlen : dets.length = 2)
    (harea : (dets.map (fun d => d.corrosion_area)).sum = 600)
    (hdepth : pyMax (dets.map (fun d => d.corrosion_depth)) = 5/2) :
    (RiskAssessmentNode.assess_risk o dets []).factors =
      [("corrosion_area", 3/25), ("corrosion_depth", 5/6),
       ("corrosion_count", 1/5), ("environmental", 1/2)] ∧
    (RiskAssessmentNode.assess_risk o dets []).risk_score = 689/1500 ∧
    (RiskAssessmentNode.assess_risk o dets []).corrosion_level = CorrosionLevel.MEDIUM ∧
    (RiskAssessmentNode.assess_risk o dets []).urgency = "紧急" := by
  have henv : RiskAssessmentNode.calculate_environmental_factor [] = 1/2 := by
    simp [RiskAssessmentNode.calculate_environmental_factor]
  refine ⟨?_, ?_, ?_, ?_⟩ <;>
    norm_num [RiskAssessmentNode.assess_risk, hlen, harea, hdepth, henv, min_def,
      RiskAssessmentNode.determine_risk_level,
      RiskAssessmentNode.determine_urgency, config]

/-- Witness for the amended C1 on the concrete Scenario B findings. -/
theorem C1_scenario_b_assessment_witness :
    (RiskAssessmentNode.assess_risk riskOracle0 scenarioBDetections []).factors =
      [("corrosion_area", 3/25), ("corrosion_depth", 5/6),
       ("corrosion_count", 1/5), ("environmental", 1/2)] ∧
    (RiskAssessmentNode.assess_risk riskOracle0 scenarioBDetections []).risk_score =
      689/1500 ∧
    (RiskAssessmentNode.assess_risk riskOracle0 scenarioBDetections []).corrosion_level =
      CorrosionLevel.MEDIUM ∧
    (RiskAssessmentNode.assess_risk riskOracle0 scenarioBDetections []).urgency = "紧急" :=
  C1_scenario_b_assessment riskOracle0 scenarioBDetections
    (by simp [scenarioBDetections])
    (by norm_num [scenarioBDetections])
    (by norm_num [scenarioBDetections, pyMax, max_def])

/-! ## C7: errors and warnings never shrink during a run -/

/-- Chain principle for the bounded loop: if every full step (stage
invocation followed by edge evaluation) relates the state before to the
state after, the run's step trace is an `R`-chain from the initial
state. -/
theorem invokeTrace_chain (g : StateGraph) (R : AgentState → AgentState → Prop)
    (hstep : ∀ name s,
      R s (CompiledGraph.getNextNode g name (CompiledGraph.execNode g name s)).2) :
    ∀ (n : ℕ) (cur : Option String) (s : AgentState),
      List.Chain' R (s :: CompiledGraph.invokeTraceAux g n cur s) := by
  intro n
  induction n with
  | zero => intro cur s; simp [CompiledGraph.invokeTraceAux]
  | succ n ih =>
    intro cur s
    cases cur with
    | none => simp [CompiledGraph.invokeTraceAux]
    | some c =>
      simp only [CompiledGraph.invokeTraceAux]
      rw [List.chain'_cons]
      exact ⟨hstep c s, ih _ _⟩

/-- The data-collection stage wrapper only appends to `errors` and
`warnings`. -/
theorem data_collection_node_grows (o : CorrosionDetectionAgent.PipelineOracle)
    (s : AgentState) :
    s.errors.length ≤ (CorrosionDetectionAgent.data_collection_node o s).errors.length ∧
    s.warnings.length ≤ (CorrosionDetectionAgent.data_collection_node o s).warnings.length := by
  unfold CorrosionDetectionAgent.data_collection_node DataCollectionNode.execute
    DataCollectionNode.process_image_data DataCollectionNode.collect_sensor_data
  cases o.wrp.data_collection_raises <;>
    cases o.dc.collect_raises <;>
      cases o.dc.images_raise <;>
        simp [List.length_append]

/-- The analysis stage wrapper only appends to `errors`/`warnings`. -/
theorem corrosion_analysis_node_grows (o : CorrosionDetectionAgent.PipelineOracle)
    (s : AgentState) :
    s.errors.length ≤ (CorrosionDetectionAgent.corrosion_analysis_node o s).errors.length ∧
    s.warnings.length ≤
      (CorrosionDetectionAgent.corrosion_analysis_node o s).warnings.length := by
  unfold CorrosionDetectionAgent.corrosion_analysis_node CorrosionAnalysisNode.execute
  cases o.wrp.analysis_raises <;> simp [List.length_append]

/-- The risk-assessment stage wrapper only appends to
`errors`/`warnings`. -/
theorem risk_assessment_node_grows (o : CorrosionDetectionAgent.PipelineOracle)
    (s : AgentState) :
    s.errors.length ≤ (CorrosionDetectionAgent.risk_assessment_node o s).errors.length ∧
    s.warnings.length ≤
      (CorrosionDetectionAgent.risk_assessment_node o s).warnings.length := by
  unfold CorrosionDetectionAgent.risk_assessment_node RiskAssessmentNode.execute
  cases o.wrp.risk_raises <;> simp [List.length_append]

/-- The report-generation stage wrapper only appends to
`errors`/`warnings`. -/
theorem report_generation_node_grows (o : CorrosionDetectionAgent.PipelineOracle)
    (s : AgentState) :
    s.errors.length ≤ (CorrosionDetectionAgent.report_generation_node o s).errors.length ∧
    s.warnings.length ≤
      (CorrosionDetectionAgent.report_generation_node o s).warnings.length := by
  unfold CorrosionDetectionAgent.report_generation_node ReportGenerationNode.execute
  cases o.wrp.report_raises <;> simp [List.length_append]

/-- Every stage invocation of the pipeline graph only appends to
`errors`/`warnings`. -/
theorem agentGraph_node_grows (o : CorrosionDetectionAgent.PipelineOracle)
    (name : String) (s : AgentState) :
    s.errors.length ≤
      (CompiledGraph.execNode (CorrosionDetectionAgent.agentGraph o) name s).errors.length ∧
    s.warnings.length ≤
      (CompiledGraph.execNode (CorrosionDetectionAgent.agentGraph o) name s).warnings.length := by
  unfold CompiledGraph.execNode CorrosionDetectionAgent.agentGraph
  simp only []
  split_ifs
  · simpa using data_collection_node_grows o s
  · simpa using corrosion_analysis_node_grows o s
  · simpa using risk_assessment_node_grows o s
  · simpa using report_generation_node_grows o s
  · simp

/-- The intake routing decision only appends to `errors`/`warnings`. -/
theorem should_continue_to_analysis_grows (s : AgentState) :
    s.errors.length ≤
      (CorrosionDetectionAgent.should_continue_to_analysis s).2.errors.length ∧
    s.warnings.length ≤
      (CorrosionDetectionAgent.should_continue_to_analysis s).2.warnings.length := by
  unfold CorrosionDetectionAgent.should_continue_to_analysis
  split_ifs <;> simp [List.length_append]

/-- The analysis routing decision only appends to `errors`/`warnings`. -/
theorem should_continue_to_risk_assessment_grows (s : AgentState) :
    s.errors.length ≤
      (CorrosionDetectionAgent.should_continue_to_risk_assessment s).2.errors.length ∧
    s.warnings.length ≤
      (CorrosionDetectionAgent.should_continue_to_risk_assessment s).2.warnings.length := by
  unfold CorrosionDetectionAgent.should_continue_to_risk_assessment
  split_ifs <;> simp [List.length_append]

/-- Every routing evaluation of the pipeline graph only appends to
`errors`/`warnings`. -/
theorem agentGraph_cond_grows (o : CorrosionDetectionAgent.PipelineOracle)
    (name : String) (s : AgentState) :
    s.errors.length ≤
      ((CompiledGraph.getNextNode (CorrosionDetectionAgent.agentGraph o) name s).2).errors.length ∧
    s.warnings.length ≤
      ((CompiledGraph.getNextNode (CorrosionDetectionAgent.agentGraph o) name s).2).warnings.length := by
  unfold CompiledGraph.getNextNode CorrosionDetectionAgent.agentGraph
  simp only []
  split_ifs
  · simpa using should_continue_to_analysis_grows s
  · simpa using should_continue_to_risk_assessment_grows s
  · simp [CorrosionDetectionAgent.should_generate_report]
  · simp

/-- One full executor step over the pipeline graph only appends to
`errors`/`warnings`. -/
theorem agentGraph_step_grows (o : CorrosionDetectionAgent.PipelineOracle)
    (name : String) (s : AgentState) :
    s.errors.length ≤
      ((CompiledGraph.getNextNode (CorrosionDetectionAgent.agentGraph o) name
        (CompiledGraph.execNode (CorrosionDetectionAgent.agentGraph o) name s)).2).errors.length ∧
    s.warnings.length ≤
      ((CompiledGraph.getNextNode (CorrosionDetectionAgent.agentGraph o) name
        (CompiledGraph.execNode (CorrosionDetectionAgent.agentGraph o) name s)).2).warnings.length := by
  obtain ⟨h1, h2⟩ := agentGraph_node_grows o name s
  obtain ⟨h3, h4⟩ := agentGraph_cond_grows o name
    (CompiledGraph.execNode (CorrosionDetectionAgent.agentGraph o) name s)
  exact ⟨le_trans h1 h3, le_trans h2 h4⟩

/-- C7: across every run of the four-stage pipeline, the lengths of the
`errors` and `warnings` lists are non-decreasing from each executor step
to the next — no stage invocation, reconciliation or routing decision
shrinks them. -/
theorem C7_errors_warnings_monotone (o : CorrosionDetectionAgent.PipelineOracle)
    (init : AgentState) :
    List.Chain'
      (fun a b => a.errors.length ≤ b.errors.length ∧
                  a.warnings.length ≤ b.warnings.length)
      (init :: CompiledGraph.invokeTrace (CorrosionDetectionAgent.agentGraph o) init) := by
  apply invokeTrace_chain
  intro name s
  exact agentGraph_step_grows o name s

/-! ## C10: the report is always built; recommendation counts by level -/

/-- C10: report assembly always produces a report; when the risk
assessment is absent the report's maintenance-recommendation list is
empty, and with an assessment the list has exactly one record for LOW,
one for MEDIUM, two for HIGH and one for CRITICAL. -/
theorem C10_report_recommendation_counts (o : ReportGenerationNode.ReportOracle)
    (s : AgentState) :
    ((ReportGenerationNode.execute o s).final_report).isSome = true ∧
    (s.risk_assessment = none →
      ∃ r, (ReportGenerationNode.execute o s).final_report = some r ∧
        r.maintenance_recommendations = []) ∧
    (∀ a, s.risk_assessment = some a →
      ∃ r, (ReportGenerationNode.execute o s).final_report = some r ∧
        r.maintenance_recommendations.length =
          (match a.corrosion_level with
           | CorrosionLevel.LOW => 1
           | CorrosionLevel.MEDIUM => 1
           | CorrosionLevel.HIGH => 2
           | CorrosionLevel.CRITICAL => 1)) := by
  refine ⟨by simp [ReportGenerationNode.execute], ?_, ?_⟩
  · intro hnone
    refine ⟨_, rfl, ?_⟩
    simp [ReportGenerationNode.execute,
      ReportGenerationNode.generate_maintenance_recommendations, hnone]
  · intro a ha
    refine ⟨_, rfl, ?_⟩
    simp only [ReportGenerationNode.execute]
    cases hl : a.corrosion_level <;>
      simp [ReportGenerationNode.generate_maintenance_recommendations, ha, hl]

/-- A HIGH-level assessment fixture. -/
def highAssessment : RiskAssessment :=
  { assessment_id := "risk_high", corrosion_level := CorrosionLevel.HIGH,
    risk_score := 7/10, factors := [], recommendations := [], urgency := "高",
    timestamp := 0 }

/-- Witness for C10: the report built with no assessment carries no
maintenance records, and the one built from a HIGH assessment carries
exactly two. -/
theorem C10_report_recommendation_counts_witness :
    (∃ r, (ReportGenerationNode.execute reportOracle0 baseState).final_report = some r ∧
       r.maintenance_recommendations = []) ∧
    (∃ r, (ReportGenerationNode.execute reportOracle0
        { baseState with risk_assessment := some highAssessment }).final_report = some r ∧
       r.maintenance_recommendations.length = 2) := by
  constructor
  · exact (C10_report_recommendation_counts reportOracle0 baseState).2.1 rfl
  · have h := (C10_report_recommendation_counts reportOracle0
      { baseState with risk_assessment := some highAssessment }).2.2 highAssessment rfl
    simpa [highAssessment] using h

end CorrosionAgent
